import Mathlib

/-!
Verification of `src/app/main.py` (rest-latex compile service).

The service is shallowly embedded: POSIX paths become lists of components,
`pathlib` operations become pure functions, `HTTPException` becomes an error
value, the subprocess outcome and the on-disk PDF check become parameters,
and the `/compile` handler becomes a pure function returning the list of
filesystem events it performs together with its HTTP result.
-/

namespace RestLatex

/-- Embeds `ServiceSettings` (main.py lines 14-19). -/
structure ServiceSettings where
  latex_engine : String
  latex_timeout_seconds : Nat
  latex_main_filename : String
  tectonic_cache_dir : String
  deriving Repr, DecidableEq

/-! Python string primitives, modelled over `String.data` so that concrete
instances evaluate inside the kernel. -/

/-- `str.lower` on an ASCII character. -/
def lowerChar (c : Char) : Char :=
  if 'A' ≤ c ∧ c ≤ 'Z' then Char.ofNat (c.toNat + 32) else c

/-- Python `str.lower` (the service only compares ASCII engine names and
filename suffixes). -/
def pyLower (s : String) : String :=
  ⟨s.data.map lowerChar⟩

/-- Python `s.startswith(p)`. -/
def pyStartsWith (s p : String) : Bool :=
  p.data.isPrefixOf s.data

/-- Python `s.endswith(p)`. -/
def pyEndsWith (s p : String) : Bool :=
  p.data.reverse.isPrefixOf s.data.reverse

/-- A character Python `str.strip()` removes by default. -/
def isPySpace (c : Char) : Bool :=
  c = ' ' || c = '\t' || c = '\n' || c = '\r' || c = '\x0b' || c = '\x0c'

/-- Python `str.strip()` with no argument: drop whitespace at both ends. -/
def pyStrip (s : String) : String :=
  ⟨((s.data.dropWhile isPySpace).reverse.dropWhile isPySpace).reverse⟩

/-- Python `s.split("/")` on the character list. -/
def splitSlashAux : List Char → List (List Char)
  | [] => [[]]
  | c :: rest =>
    let r := splitSlashAux rest
    if c = '/' then [] :: r
    else match r with
      | [] => [[c]]
      | h :: t => (c :: h) :: t

/-- Python `s.split("/")`. -/
def splitSlash (s : String) : List String :=
  (splitSlashAux s.data).map fun l => ⟨l⟩

/-- `"/".join` on the character level, for printing paths. -/
def intercalateSlash : List String → List Char
  | [] => []
  | [p] => p.data
  | p :: rest => p.data ++ '/' :: intercalateSlash rest

/-- A POSIX `pathlib.Path`: an absolute flag plus the list of components
(`PurePosixPath` drops empty and `"."` components at construction but keeps
`".."`). Symbolic links are not modelled: `resolve()` is pure normalization. -/
structure PyPath where
  absolute : Bool
  components : List String
  deriving Repr, DecidableEq

/-- `Path(s)`: a leading slash makes the path absolute; empty and `"."`
components are dropped, as `pathlib` does. -/
def parsePath (s : String) : PyPath :=
  { absolute := pyStartsWith s "/"
    components := (splitSlash s).filter (fun c => c != "" && c != ".") }

/-- `p / q` for `pathlib` paths: an absolute right operand replaces the left. -/
def joinPath (p q : PyPath) : PyPath :=
  if q.absolute then q else ⟨p.absolute, p.components ++ q.components⟩

/-- One step of POSIX path normalization on an absolute path: drop empty and
`"."`, let `".."` pop the previous component (at the root it is a no-op). -/
def normStep (acc : List String) (c : String) : List String :=
  if c = "" ∨ c = "." then acc
  else if c = ".." then acc.dropLast
  else acc ++ [c]

/-- `Path.resolve()` without symlinks: a relative path is joined to the
current working directory, then the components are normalized; the result is
absolute. -/
def resolvePath (cwd p : PyPath) : PyPath :=
  let base := if p.absolute then p else joinPath cwd p
  ⟨true, base.components.foldl normStep []⟩

/-- `str(p)` for an absolute or relative `pathlib` path. -/
def pathStr (p : PyPath) : String :=
  if p.absolute then ⟨'/' :: intercalateSlash p.components⟩
  else ⟨intercalateSlash p.components⟩

/-- `True` for a component that names a real directory entry: not empty, not
`"."`, not `".."`. -/
def isPlainComponent (c : String) : Bool :=
  c != "" && c != "." && c != ".."

/-- `p` is inside (or equal to) `root`: same absoluteness and `root`'s
components are a prefix of `p`'s. -/
def withinDirB (root p : PyPath) : Bool :=
  root.absolute == p.absolute && root.components.isPrefixOf p.components

/-- The `detail` payload of an `HTTPException`: either a plain message or the
structured compilation-failure payload of main.py lines 119-123. -/
inductive ErrDetail where
  | msg (text : String)
  | compileFailure (message stdout stderr : String)
  deriving Repr, DecidableEq

/-- Embeds `fastapi.HTTPException`. -/
structure HTTPE where
  status_code : Nat
  detail : ErrDetail
  deriving Repr, DecidableEq

/-- Embeds `ensure_tex_extension` (lines 53-56): rejects a missing filename,
an empty filename (Python falsiness of `""`), or one whose lowercasing does
not end in `".tex"`. -/
def ensure_tex_extension (filename : Option String) : Except HTTPE Unit :=
  match filename with
  | none => .error ⟨400, .msg "Uploaded file must have a .tex extension."⟩
  | some s =>
      if s = "" ∨ pyEndsWith (pyLower s) ".tex" = false then
        .error ⟨400, .msg "Uploaded file must have a .tex extension."⟩
      else .ok ()

/-- The Boolean form of the acceptance condition of `ensure_tex_extension`. -/
def texNameOk : Option String → Bool
  | none => false
  | some s => s != "" && pyEndsWith (pyLower s) ".tex"

/-- Embeds `ensure_zip_is_valid` (lines 59-62); whether the uploaded bytes
form a readable ZIP is a Boolean input of the model. -/
def ensure_zip_is_valid (is_zipfile : Bool) : Except HTTPE Unit :=
  if is_zipfile then .ok ()
  else .error ⟨400, .msg "Provided assets archive is not a valid ZIP file."⟩

/-- The per-entry check of `extract_zip_safely` (lines 69-70):
`str((target_dir / member.filename).resolve()).startswith(str(target_dir.resolve()))`. -/
def zipEntrySafe (cwd targetDir : PyPath) (name : String) : Bool :=
  pyStartsWith (pathStr (resolvePath cwd (joinPath targetDir (parsePath name))))
    (pathStr (resolvePath cwd targetDir))

/-- The destination components `ZipFile.extractall` sanitizes a member name
to: CPython's `_extract_member` splits on the separator and removes empty,
`"."` and `".."` parts before joining to the target directory. -/
def sanitizeMemberName (name : String) : List String :=
  (splitSlash name).filter isPlainComponent

/-- Where `ZipFile.extractall(target_dir)` writes the member `name`:
`os.path.normpath(os.path.join(target_dir, sanitized))`. -/
def extractDest (targetDir : PyPath) (name : String) : PyPath :=
  ⟨targetDir.absolute, (targetDir.components ++ sanitizeMemberName name).foldl normStep []⟩

/-- Embeds `extract_zip_safely` (lines 65-72): every member is checked with
`zipEntrySafe` before anything is extracted; on success the result lists the
destinations `extractall` writes, in archive order. -/
def extract_zip_safely (cwd targetDir : PyPath) (members : List String) :
    Except HTTPE (List PyPath) :=
  if members.all (zipEntrySafe cwd targetDir) then
    .ok (members.map (extractDest targetDir))
  else .error ⟨400, .msg "Archive contains unsafe paths."⟩

/-- Embeds `build_engine_command` (lines 75-95). -/
def build_engine_command (work_dir : PyPath) (tex_filename : String)
    (current_settings : ServiceSettings) : List String :=
  if pyLower current_settings.latex_engine = "tectonic" then
    [current_settings.latex_engine, "--synctex=0", "--keep-intermediates",
      "--keep-logs", "--outdir", pathStr work_dir, tex_filename]
  else
    [current_settings.latex_engine, "-interaction=nonstopmode", "-halt-on-error",
      "-output-directory", pathStr work_dir, tex_filename]

/-- The three observable outcomes of `subprocess.run` in `run_latex_engine`:
the executable is missing, the timeout expires, or the process completes with
a return code and captured output. -/
inductive ProcOutcome where
  | fileNotFound
  | timedOut
  | completed (returncode : Int) (stdout stderr : String)
  deriving Repr, DecidableEq

/-- Embeds the error mapping of `run_latex_engine` (lines 98-124): the
subprocess outcome is an input; command construction is `build_engine_command`
and is recorded by the caller's event trace. -/
def run_latex_engine (outcome : ProcOutcome) : Except HTTPE Unit :=
  match outcome with
  | .fileNotFound => .error ⟨500, .msg "LaTeX engine executable not found."⟩
  | .timedOut => .error ⟨504, .msg "LaTeX compilation timed out."⟩
  | .completed rc out err =>
      if rc ≠ 0 then
        .error ⟨400, .compileFailure "LaTeX compilation failed." (pyStrip out) (pyStrip err)⟩
      else .ok ()

/-- `Path.with_suffix` on a final component's name: if the name has a suffix
(a dot at an index strictly between 0 and the last) it is replaced, otherwise
the new suffix is appended. -/
def withSuffixName (name suffix : String) : String :=
  let cs := name.data
  let k := (cs.reverse.takeWhile (fun c => c ≠ '.')).length
  if k = cs.length ∨ k = 0 ∨ cs.length - 1 - k = 0 then ⟨cs ++ suffix.data⟩
  else ⟨cs.take (cs.length - (k + 1)) ++ suffix.data⟩

/-- `p.with_suffix(suffix)` applied to the last component. -/
def withSuffixPath (p : PyPath) (suffix : String) : PyPath :=
  ⟨p.absolute, p.components.dropLast ++
    (match p.components.getLast? with
      | some last => [withSuffixName last suffix]
      | none => [])⟩

/-- Embeds the `Response` built by `build_pdf_response` (lines 127-133). -/
structure PdfResponse where
  source_path : PyPath
  media_type : String
  content_disposition : String
  deriving Repr, DecidableEq

/-- Embeds `build_pdf_response`: the bytes read from `pdf_path` with an
attachment header naming the file's basename. -/
def build_pdf_response (pdf_path : PyPath) : PdfResponse :=
  { source_path := pdf_path
    media_type := "application/pdf"
    content_disposition :=
      "attachment; filename=\"" ++ (pdf_path.components.getLast?.getD "") ++ "\"" }

/-- Tags the origin of a file write in the handler's trace: the `tex_file`
upload, the `assets_archive` upload, or the extraction of one ZIP member. -/
inductive WriteSource where
  | texUpload
  | archiveUpload
  | zipEntry (name : String)
  deriving Repr, DecidableEq

/-- One observable filesystem or subprocess action of the `/compile` handler,
in the order the handler performs them. -/
inductive FsEvent where
  | createDir (p : PyPath)
  | writeFile (p : PyPath) (src : WriteSource)
  | removeFile (p : PyPath)
  | runEngine (command : List String)
  | removeTree (p : PyPath)
  deriving Repr, DecidableEq

/-- The optional `assets_archive` upload: its client-supplied filename, whether
its bytes form a readable ZIP, and the member names of its entries. -/
structure ArchiveUpload where
  filename : Option String
  is_valid_zip : Bool
  members : List String
  deriving Repr, DecidableEq

/-- A `/compile` request: the main file's client-supplied filename and the
optional assets archive. File bytes are not modelled; writes carry their
`WriteSource` instead. -/
structure CompileRequest where
  tex_filename : Option String
  assets_archive : Option ArchiveUpload
  deriving Repr, DecidableEq

/-- Python truthiness of `assets_archive and assets_archive.filename`
(line 146): the field is present and its filename is neither `None` nor `""`. -/
def archivePresent (req : CompileRequest) : Bool :=
  match req.assets_archive with
  | none => false
  | some a => a.filename.getD "" != ""

/-- Whether the archive-handling block (lines 146-151) runs without raising:
either there is no archive to handle, or it is a valid ZIP whose every member
passes the `zipEntrySafe` check. -/
def archiveStepOk (cwd work_dir : PyPath) (req : CompileRequest) : Bool :=
  match req.assets_archive with
  | none => true
  | some a =>
    if a.filename.getD "" != "" then
      a.is_valid_zip && a.members.all (zipEntrySafe cwd work_dir)
    else true

/-- Classifies the events the `try`-block body can emit: everything except
workspace creation and destruction. -/
def isBodyEvent : FsEvent → Bool
  | .createDir _ => false
  | .removeTree _ => false
  | _ => true

/-- The engine invocation and PDF lookup (lines 153-157): record the command,
map the subprocess outcome, then require the PDF at
`tex_path.with_suffix(".pdf")` to exist. `pdfExists` models `Path.exists` for
the state of the workspace after the engine ran. -/
def engineAndPdf (s : ServiceSettings) (work_dir tex_path : PyPath)
    (proc : ProcOutcome) (pdfExists : PyPath → Bool) :
    List FsEvent × Except HTTPE PdfResponse :=
  let command :=
    build_engine_command work_dir (tex_path.components.getLast?.getD "") s
  ([FsEvent.runEngine command],
    match run_latex_engine proc with
    | .error e => .error e
    | .ok _ =>
      let pdf_path := withSuffixPath tex_path ".pdf"
      if pdfExists pdf_path then .ok (build_pdf_response pdf_path)
      else .error ⟨500, .msg "PDF output missing after compilation."⟩)

/-- The body of the `try` block of `compile_latex` (lines 143-157): write the
main file, then optionally save, validate, extract and delete the assets
archive, then invoke the engine and look for the PDF. -/
def compileBody (s : ServiceSettings) (cwd work_dir tex_path : PyPath)
    (req : CompileRequest) (proc : ProcOutcome) (pdfExists : PyPath → Bool) :
    List FsEvent × Except HTTPE PdfResponse :=
  let writeTex := FsEvent.writeFile tex_path WriteSource.texUpload
  let noArchive :=
    let tail := engineAndPdf s work_dir tex_path proc pdfExists
    (writeTex :: tail.1, tail.2)
  match req.assets_archive with
  | none => noArchive
  | some a =>
    if (a.filename.getD "") != "" then
      let archive_path := joinPath work_dir (parsePath "assets.zip")
      let saved := [writeTex, FsEvent.writeFile archive_path WriteSource.archiveUpload]
      match ensure_zip_is_valid a.is_valid_zip with
      | .error e => (saved, .error e)
      | .ok _ =>
        match extract_zip_safely cwd work_dir a.members with
        | .error e => (saved, .error e)
        | .ok _ =>
          let extracted := a.members.map fun m =>
            FsEvent.writeFile (extractDest work_dir m) (WriteSource.zipEntry m)
          let tail := engineAndPdf s work_dir tex_path proc pdfExists
          (saved ++ extracted ++ [FsEvent.removeFile archive_path] ++ tail.1, tail.2)
    else noArchive

/-- Embeds the `/compile` handler `compile_latex` (lines 136-163): validate
the extension before any filesystem action, create the workspace (`work_dir`
stands for the directory `mkdtemp` chose), run the body, and unconditionally
remove the workspace tree in the `finally` clause. All raised errors are
`HTTPException`s, which the `except HTTPException: raise` clause re-raises
unchanged. -/
def compile_latex (s : ServiceSettings) (cwd work_dir : PyPath)
    (req : CompileRequest) (proc : ProcOutcome) (pdfExists : PyPath → Bool) :
    List FsEvent × Except HTTPE PdfResponse :=
  match ensure_tex_extension req.tex_filename with
  | .error e => ([], .error e)
  | .ok _ =>
    let tex_path := joinPath work_dir (parsePath s.latex_main_filename)
    let body := compileBody s cwd work_dir tex_path req proc pdfExists
    (FsEvent.createDir work_dir :: body.1 ++ [FsEvent.removeTree work_dir], body.2)

/-! ## Helper lemmas -/

/-- Folding `normStep` over components that are all plain simply appends them. -/
theorem foldl_normStep_plain (l acc : List String)
    (h : ∀ c ∈ l, isPlainComponent c = true) :
    l.foldl normStep acc = acc ++ l := by
  induction l generalizing acc with
  | nil => simp
  | cons c l ih =>
    have hc := h c (by simp)
    have hl : ∀ x ∈ l, isPlainComponent x = true := fun x hx => h x (by simp [hx])
    have hstep : normStep acc c = acc ++ [c] := by
      simp only [isPlainComponent, Bool.and_eq_true, bne_iff_ne, ne_eq] at hc
      simp [normStep, hc.1.1, hc.1.2, hc.2]
    simp only [List.foldl_cons, hstep, ih _ hl, List.append_assoc, List.singleton_append]

/-- Every component surviving `sanitizeMemberName` is plain. -/
theorem sanitizeMemberName_plain (name : String) :
    ∀ c ∈ sanitizeMemberName name, isPlainComponent c = true := by
  intro c hc
  exact (List.mem_filter.mp hc).2

/-- With a normalized target directory, `extractall` writes a member under the
target at its sanitized relative component list. -/
theorem extractDest_eq (target : PyPath) (name : String)
    (h : ∀ c ∈ target.components, isPlainComponent c = true) :
    extractDest target name =
      ⟨target.absolute, target.components ++ sanitizeMemberName name⟩ := by
  unfold extractDest
  have h1 : target.components.foldl normStep [] = target.components := by
    simpa using foldl_normStep_plain target.components [] h
  have h2 := foldl_normStep_plain (sanitizeMemberName name) target.components
    (sanitizeMemberName_plain name)
  rw [List.foldl_append, h1, h2]

/-- `ensure_tex_extension` accepts exactly the filenames `texNameOk` accepts. -/
theorem ensure_tex_extension_eq (f : Option String) :
    ensure_tex_extension f =
      if texNameOk f then .ok ()
      else .error ⟨400, .msg "Uploaded file must have a .tex extension."⟩ := by
  cases f with
  | none => rfl
  | some s =>
    by_cases h1 : s = "" <;> by_cases h2 : pyEndsWith (pyLower s) ".tex" = true <;>
      simp [ensure_tex_extension, texNameOk, h1, h2]

/-- The body of the handler never creates nor destroys the workspace
directory itself; those two actions belong to the surrounding handler. -/
theorem compileBody_only_body_events (s : ServiceSettings)
    (cwd work_dir tex_path : PyPath) (req : CompileRequest) (proc : ProcOutcome)
    (pdfExists : PyPath → Bool) :
    ∀ e ∈ (compileBody s cwd work_dir tex_path req proc pdfExists).1,
      isBodyEvent e = true := by
  obtain ⟨tf, arch⟩ := req
  rcases arch with _ | a
  · simp [compileBody, engineAndPdf, isBodyEvent]
  · simp only [compileBody, engineAndPdf]
    by_cases hf : (a.filename.getD "" != "") = true
    · rw [if_pos hf]
      cases hv : a.is_valid_zip with
      | false => simp [ensure_zip_is_valid, hv, isBodyEvent]
      | true =>
        simp only [ensure_zip_is_valid, hv, if_true]
        by_cases hall : a.members.all (zipEntrySafe cwd work_dir) = true
        · simp [extract_zip_safely, hall, isBodyEvent, List.forall_mem_map]
          intro e he
          rcases he with ⟨m, hm, h⟩ | h | h <;> subst h <;> rfl
        · rw [extract_zip_safely, if_neg hall]
          simp [isBodyEvent]
    · rw [if_neg hf]
      simp [isBodyEvent]

/-- When the main filename passes validation the handler creates the
workspace, runs the body, and removes the workspace tree last. -/
theorem compile_latex_accept_eq (s : ServiceSettings) (cwd work_dir : PyPath)
    (req : CompileRequest) (proc : ProcOutcome) (pdfExists : PyPath → Bool)
    (h : texNameOk req.tex_filename = true) :
    compile_latex s cwd work_dir req proc pdfExists =
      (FsEvent.createDir work_dir ::
        (compileBody s cwd work_dir (joinPath work_dir (parsePath s.latex_main_filename))
          req proc pdfExists).1 ++ [FsEvent.removeTree work_dir],
       (compileBody s cwd work_dir (joinPath work_dir (parsePath s.latex_main_filename))
          req proc pdfExists).2) := by
  unfold compile_latex
  rw [ensure_tex_extension_eq, if_pos h]

/-- When the main filename fails validation the handler performs no
filesystem action at all and reports the 400 error. -/
theorem compile_latex_reject_eq (s : ServiceSettings) (cwd work_dir : PyPath)
    (req : CompileRequest) (proc : ProcOutcome) (pdfExists : PyPath → Bool)
    (h : texNameOk req.tex_filename = false) :
    compile_latex s cwd work_dir req proc pdfExists =
      ([], .error ⟨400, .msg "Uploaded file must have a .tex extension."⟩) := by
  unfold compile_latex
  rw [ensure_tex_extension_eq, if_neg (by simp [h])]

/-- Without a usable archive upload, the body writes the main file and goes
straight to the engine invocation. -/
theorem compileBody_no_archive_eq (s : ServiceSettings)
    (cwd work_dir tex_path : PyPath) (tf : Option String)
    (arch : Option ArchiveUpload) (proc : ProcOutcome) (pdfExists : PyPath → Bool)
    (h : archivePresent ⟨tf, arch⟩ = false) :
    compileBody s cwd work_dir tex_path ⟨tf, arch⟩ proc pdfExists =
      ([FsEvent.writeFile tex_path .texUpload,
        FsEvent.runEngine (build_engine_command work_dir
          (tex_path.components.getLast?.getD "") s)],
       (engineAndPdf s work_dir tex_path proc pdfExists).2) := by
  rcases arch with _ | a
  · rfl
  · simp only [archivePresent] at h
    simp only [compileBody]
    rw [if_neg (by simp [h])]
    rfl

/-- With a present, valid archive whose members all pass the path check, the
body writes the main file and the archive, extracts every member, removes the
archive, and invokes the engine. -/
theorem compileBody_safe_archive_eq (s : ServiceSettings)
    (cwd work_dir tex_path : PyPath) (a : ArchiveUpload) (tf : Option String)
    (proc : ProcOutcome) (pdfExists : PyPath → Bool)
    (hf : (a.filename.getD "" != "") = true)
    (hv : a.is_valid_zip = true)
    (hall : a.members.all (zipEntrySafe cwd work_dir) = true) :
    compileBody s cwd work_dir tex_path ⟨tf, some a⟩ proc pdfExists =
      ([FsEvent.writeFile tex_path .texUpload,
        FsEvent.writeFile (joinPath work_dir (parsePath "assets.zip")) .archiveUpload]
        ++ (a.members.map fun m =>
              FsEvent.writeFile (extractDest work_dir m) (.zipEntry m))
        ++ [FsEvent.removeFile (joinPath work_dir (parsePath "assets.zip"))]
        ++ [FsEvent.runEngine (build_engine_command work_dir
              (tex_path.components.getLast?.getD "") s)],
       (engineAndPdf s work_dir tex_path proc pdfExists).2) := by
  simp only [compileBody]
  rw [if_pos hf]
  simp only [ensure_zip_is_valid, hv, if_true]
  simp only [extract_zip_safely]
  rw [if_pos hall]
  rfl

/-- With a zero exit code the handler's result reduces to the PDF lookup. -/
theorem engineAndPdf_res_exit_zero (s : ServiceSettings)
    (work_dir tex_path : PyPath) (out err : String) (pdfExists : PyPath → Bool) :
    (engineAndPdf s work_dir tex_path (.completed 0 out err) pdfExists).2 =
      (if pdfExists (withSuffixPath tex_path ".pdf") then
        .ok (build_pdf_response (withSuffixPath tex_path ".pdf"))
      else .error ⟨500, .msg "PDF output missing after compilation."⟩) := by
  simp [engineAndPdf, run_latex_engine]

/-! ## Claim theorems -/

/-- C4: a main-file name that is absent, empty, or does not end in `".tex"`
case-insensitively is rejected with a 400 error before any workspace is
created: the handler performs no filesystem event and returns the error. -/
theorem bad_tex_name_rejected_before_workspace (s : ServiceSettings)
    (cwd work_dir : PyPath) (req : CompileRequest) (proc : ProcOutcome)
    (pdfExists : PyPath → Bool)
    (h : texNameOk req.tex_filename = false) :
    compile_latex s cwd work_dir req proc pdfExists =
      ([], .error ⟨400, .msg "Uploaded file must have a .tex extension."⟩) :=
  compile_latex_reject_eq s cwd work_dir req proc pdfExists h

/-- Witness for C4, at the filename `"main.pdf"`. -/
theorem bad_tex_name_rejected_before_workspace_witness :
    compile_latex ⟨"tectonic", 60, "main.tex", "/tmp/c"⟩ ⟨true, []⟩
        ⟨true, ["tmp", "w"]⟩ ⟨some "main.pdf", none⟩ (.completed 0 "" "")
        (fun _ => true) =
      ([], .error ⟨400, .msg "Uploaded file must have a .tex extension."⟩) :=
  bad_tex_name_rejected_before_workspace ⟨"tectonic", 60, "main.tex", "/tmp/c"⟩
    ⟨true, []⟩ ⟨true, ["tmp", "w"]⟩ ⟨some "main.pdf", none⟩ (.completed 0 "" "")
    (fun _ => true) (by decide)

/-- C5: a subprocess that completes with a non-zero return code makes
`run_latex_engine` raise a 400 error whose detail carries the human message
and the whitespace-trimmed captured stdout and stderr. -/
theorem nonzero_exit_maps_to_structured_400 (rc : Int) (out err : String)
    (h : rc ≠ 0) :
    run_latex_engine (ProcOutcome.completed rc out err) =
      .error ⟨400, .compileFailure "LaTeX compilation failed." (pyStrip out) (pyStrip err)⟩ := by
  simp [run_latex_engine, h]

/-- Witness for C5, at return code 1 with padded output. -/
theorem nonzero_exit_maps_to_structured_400_witness :
    run_latex_engine (ProcOutcome.completed 1 " log text " "error line\n") =
      .error ⟨400, .compileFailure "LaTeX compilation failed." "log text" "error line"⟩ := by
  have h := nonzero_exit_maps_to_structured_400 1 " log text " "error line\n" (by decide)
  rw [h]
  rfl

/-- C6: a missing engine executable maps to a 500 error, an exceeded timeout
to a 504 error, with the stated messages; the two are distinct from each
other and from every result of a completed process. -/
theorem engine_failure_modes_distinct :
    run_latex_engine .fileNotFound =
        .error ⟨500, .msg "LaTeX engine executable not found."⟩
    ∧ run_latex_engine .timedOut =
        .error ⟨504, .msg "LaTeX compilation timed out."⟩
    ∧ run_latex_engine .fileNotFound ≠ run_latex_engine .timedOut
    ∧ ∀ (rc : Int) (out err : String),
        run_latex_engine (ProcOutcome.completed rc out err) ≠
            run_latex_engine .fileNotFound
        ∧ run_latex_engine (ProcOutcome.completed rc out err) ≠
            run_latex_engine .timedOut := by
  refine ⟨rfl, rfl, by simp [run_latex_engine], ?_⟩
  intro rc out err
  constructor <;> (simp only [run_latex_engine]; split <;> simp)

/-- C8: the engine command line is selected by case-insensitive comparison of
the configured engine name: `"tectonic"` gets the tectonic flags, every other
name the pdflatex-compatible flags. -/
theorem engine_command_by_engine_name (work_dir : PyPath) (tex_filename : String)
    (s : ServiceSettings) :
    (pyLower s.latex_engine = "tectonic" →
      build_engine_command work_dir tex_filename s =
        [s.latex_engine, "--synctex=0", "--keep-intermediates", "--keep-logs",
          "--outdir", pathStr work_dir, tex_filename])
    ∧ (pyLower s.latex_engine ≠ "tectonic" →
      build_engine_command work_dir tex_filename s =
        [s.latex_engine, "-interaction=nonstopmode", "-halt-on-error",
          "-output-directory", pathStr work_dir, tex_filename]) := by
  constructor <;> intro h <;> simp [build_engine_command, h]

/-- Witness for C8, at the mixed-case engine `"Tectonic"` and at `"pdflatex"`. -/
theorem engine_command_by_engine_name_witness :
    build_engine_command ⟨true, ["tmp", "w"]⟩ "main.tex"
        ⟨"Tectonic", 60, "main.tex", "/tmp/c"⟩ =
      ["Tectonic", "--synctex=0", "--keep-intermediates", "--keep-logs",
        "--outdir", "/tmp/w", "main.tex"]
    ∧ build_engine_command ⟨true, ["tmp", "w"]⟩ "main.tex"
        ⟨"pdflatex", 60, "main.tex", "/tmp/c"⟩ =
      ["pdflatex", "-interaction=nonstopmode", "-halt-on-error",
        "-output-directory", "/tmp/w", "main.tex"] := by
  constructor
  · rw [(engine_command_by_engine_name ⟨true, ["tmp", "w"]⟩ "main.tex"
      ⟨"Tectonic", 60, "main.tex", "/tmp/c"⟩).1 (by decide)]
    rfl
  · rw [(engine_command_by_engine_name ⟨true, ["tmp", "w"]⟩ "main.tex"
      ⟨"pdflatex", 60, "main.tex", "/tmp/c"⟩).2 (by decide)]
    rfl

/-- C3: on every exit path, either main-file validation failed and no
filesystem event happened at all (no workspace was created), or the first
event creates the workspace, exactly one creation and exactly one
tree-removal occur, and the removal is the final event of the request. The
removal models `shutil.rmtree(work_dir, ignore_errors=True)`, which never
raises. -/
theorem workspace_destroyed_exactly_once (s : ServiceSettings)
    (cwd work_dir : PyPath) (req : CompileRequest) (proc : ProcOutcome)
    (pdfExists : PyPath → Bool) :
    (compile_latex s cwd work_dir req proc pdfExists).1 = []
    ∨ ((compile_latex s cwd work_dir req proc pdfExists).1.head? =
          some (FsEvent.createDir work_dir)
      ∧ (compile_latex s cwd work_dir req proc pdfExists).1.count
          (FsEvent.createDir work_dir) = 1
      ∧ (compile_latex s cwd work_dir req proc pdfExists).1.count
          (FsEvent.removeTree work_dir) = 1
      ∧ (compile_latex s cwd work_dir req proc pdfExists).1.getLast? =
          some (FsEvent.removeTree work_dir)) := by
  by_cases h : texNameOk req.tex_filename = true
  · right
    rw [compile_latex_accept_eq s cwd work_dir req proc pdfExists h]
    have hbody := compileBody_only_body_events s cwd work_dir
      (joinPath work_dir (parsePath s.latex_main_filename)) req proc pdfExists
    set L := (compileBody s cwd work_dir
      (joinPath work_dir (parsePath s.latex_main_filename)) req proc pdfExists).1 with hL
    have hcd : FsEvent.createDir work_dir ∉ L := by
      intro hmem
      have := hbody _ hmem
      simp [isBodyEvent] at this
    have hrt : FsEvent.removeTree work_dir ∉ L := by
      intro hmem
      have := hbody _ hmem
      simp [isBodyEvent] at this
    refine ⟨rfl, ?_, ?_, ?_⟩
    · simp [List.count_cons, List.count_append, List.count_eq_zero.mpr hcd]
    · simp [List.count_cons, List.count_append, List.count_eq_zero.mpr hrt]
    · rw [show FsEvent.createDir work_dir :: L ++ [FsEvent.removeTree work_dir] =
        (FsEvent.createDir work_dir :: L) ++ [FsEvent.removeTree work_dir] from rfl]
      rw [List.getLast?_concat]
  · rw [compile_latex_reject_eq s cwd work_dir req proc pdfExists (by simpa using h)]
    left
    rfl

/-- C7: when the subprocess exits zero but the PDF artifact — the main
filename with its extension replaced by `".pdf"` — does not exist in the
workspace, the handler returns the 500 error instead of success. -/
theorem pdf_missing_after_success_maps_to_500 (s : ServiceSettings)
    (cwd work_dir : PyPath) (req : CompileRequest) (out err : String)
    (pdfExists : PyPath → Bool)
    (htex : texNameOk req.tex_filename = true)
    (harch : archiveStepOk cwd work_dir req = true)
    (hpdf : pdfExists (withSuffixPath
      (joinPath work_dir (parsePath s.latex_main_filename)) ".pdf") = false) :
    (compile_latex s cwd work_dir req (.completed 0 out err) pdfExists).2 =
      .error ⟨500, .msg "PDF output missing after compilation."⟩ := by
  rw [compile_latex_accept_eq s cwd work_dir req _ pdfExists htex]
  obtain ⟨tf, arch⟩ := req
  rcases arch with _ | a
  · rw [compileBody_no_archive_eq s cwd work_dir _ tf none _ pdfExists rfl]
    rw [engineAndPdf_res_exit_zero]
    rw [if_neg (by simp [hpdf])]
  · simp only [archiveStepOk] at harch
    by_cases hf : (a.filename.getD "" != "") = true
    · rw [if_pos hf] at harch
      rw [compileBody_safe_archive_eq s cwd work_dir _ a tf _ pdfExists hf
        (Bool.and_eq_true_iff.mp harch).1 (Bool.and_eq_true_iff.mp harch).2]
      rw [engineAndPdf_res_exit_zero]
      rw [if_neg (by simp [hpdf])]
    · rw [compileBody_no_archive_eq s cwd work_dir _ tf (some a) _ pdfExists
        (by simp only [archivePresent]; simpa using hf)]
      rw [engineAndPdf_res_exit_zero]
      rw [if_neg (by simp [hpdf])]

/-- Witness for C7, at a request with no archive and no PDF on disk. -/
theorem pdf_missing_after_success_maps_to_500_witness :
    (compile_latex ⟨"tectonic", 60, "main.tex", "/tmp/c"⟩ ⟨true, []⟩
        ⟨true, ["tmp", "w"]⟩ ⟨some "doc.tex", none⟩ (.completed 0 "" "")
        (fun _ => false)).2 =
      .error ⟨500, .msg "PDF output missing after compilation."⟩ :=
  pdf_missing_after_success_maps_to_500 ⟨"tectonic", 60, "main.tex", "/tmp/c"⟩
    ⟨true, []⟩ ⟨true, ["tmp", "w"]⟩ ⟨some "doc.tex", none⟩ "" ""
    (fun _ => false) (by decide) (by decide) rfl

/-- Counterexample to C1: with workspace `/tmp/latexwork_abc`, the entry
`"../latexwork_abcd/evil.txt"` resolves to `/tmp/latexwork_abcd/evil.txt`,
which lies outside the workspace directory — yet `extract_zip_safely` does
not reject the archive, because the string-prefix comparison accepts the
sibling directory whose name extends the workspace's name. The archive is
accepted and extraction proceeds. -/
theorem sibling_dir_entry_not_rejected :
    withinDirB (resolvePath ⟨true, []⟩ ⟨true, ["tmp", "latexwork_abc"]⟩)
        (resolvePath ⟨true, []⟩ (joinPath ⟨true, ["tmp", "latexwork_abc"]⟩
          (parsePath "../latexwork_abcd/evil.txt"))) = false
    ∧ extract_zip_safely ⟨true, []⟩ ⟨true, ["tmp", "latexwork_abc"]⟩
        ["../latexwork_abcd/evil.txt"] =
      .ok [⟨true, ["tmp", "latexwork_abc", "latexwork_abcd", "evil.txt"]⟩] :=
  ⟨by decide, rfl⟩

/-- C1 (amended): whenever some entry fails the string-prefix containment
check — which is how the code decides "unsafe" — the handler rejects the
whole archive with the 400 error and extracts no entry at all: the trace
contains no write originating from a ZIP member. -/
theorem failed_prefix_check_rejects_whole_archive (s : ServiceSettings)
    (cwd work_dir : PyPath) (tf : Option String) (a : ArchiveUpload)
    (proc : ProcOutcome) (pdfExists : PyPath → Bool)
    (htex : texNameOk tf = true)
    (hf : (a.filename.getD "" != "") = true)
    (hv : a.is_valid_zip = true)
    (hbad : a.members.all (zipEntrySafe cwd work_dir) = false) :
    (compile_latex s cwd work_dir ⟨tf, some a⟩ proc pdfExists).2 =
      .error ⟨400, .msg "Archive contains unsafe paths."⟩
    ∧ ∀ p m, FsEvent.writeFile p (WriteSource.zipEntry m) ∉
        (compile_latex s cwd work_dir ⟨tf, some a⟩ proc pdfExists).1 := by
  rw [compile_latex_accept_eq s cwd work_dir _ proc pdfExists htex]
  have hbody : compileBody s cwd work_dir
      (joinPath work_dir (parsePath s.latex_main_filename)) ⟨tf, some a⟩ proc pdfExists =
      ([FsEvent.writeFile (joinPath work_dir (parsePath s.latex_main_filename)) .texUpload,
        FsEvent.writeFile (joinPath work_dir (parsePath "assets.zip")) .archiveUpload],
       .error ⟨400, .msg "Archive contains unsafe paths."⟩) := by
    simp only [compileBody]
    rw [if_pos hf]
    simp only [ensure_zip_is_valid, hv, if_true]
    simp only [extract_zip_safely]
    rw [if_neg (by simp [hbad])]
  rw [hbody]
  refine ⟨rfl, ?_⟩
  intro p m
  simp

/-- Witness for the amended C1, at the classic traversal entry
`"../../etc/passwd"`. -/
theorem failed_prefix_check_rejects_whole_archive_witness :
    (compile_latex ⟨"tectonic", 60, "main.tex", "/tmp/c"⟩ ⟨true, []⟩
        ⟨true, ["tmp", "w"]⟩
        ⟨some "doc.tex", some ⟨some "a.zip", true, ["../../etc/passwd"]⟩⟩
        (.completed 0 "" "") (fun _ => true)).2 =
      .error ⟨400, .msg "Archive contains unsafe paths."⟩
    ∧ FsEvent.writeFile ⟨true, ["etc", "passwd"]⟩
        (WriteSource.zipEntry "../../etc/passwd") ∉
      (compile_latex ⟨"tectonic", 60, "main.tex", "/tmp/c"⟩ ⟨true, []⟩
        ⟨true, ["tmp", "w"]⟩
        ⟨some "doc.tex", some ⟨some "a.zip", true, ["../../etc/passwd"]⟩⟩
        (.completed 0 "" "") (fun _ => true)).1 := by
  have h := failed_prefix_check_rejects_whole_archive
    ⟨"tectonic", 60, "main.tex", "/tmp/c"⟩ ⟨true, []⟩ ⟨true, ["tmp", "w"]⟩
    (some "doc.tex") ⟨some "a.zip", true, ["../../etc/passwd"]⟩
    (.completed 0 "" "") (fun _ => true) (by decide) (by decide) rfl (by decide)
  exact ⟨h.1, h.2 _ _⟩

/-- C2: every destination `extractall` writes for an accepted archive lies
within the workspace directory, and strictly within it for every member
whose sanitized name is non-empty (i.e. every member that names an actual
entry below the target). -/
theorem extract_stays_within_target (cwd target : PyPath) (members : List String)
    (dests : List PyPath)
    (hplain : ∀ c ∈ target.components, isPlainComponent c = true)
    (hok : extract_zip_safely cwd target members = .ok dests) :
    (∀ d ∈ dests, withinDirB target d = true)
    ∧ ∀ m ∈ members, sanitizeMemberName m ≠ [] → extractDest target m ≠ target := by
  have hmap : dests = members.map (extractDest target) := by
    unfold extract_zip_safely at hok
    by_cases hall : members.all (zipEntrySafe cwd target) = true
    · rw [if_pos hall] at hok
      exact (Except.ok.inj hok).symm
    · rw [if_neg hall] at hok
      cases hok
  constructor
  · intro d hd
    subst hmap
    obtain ⟨m, _, rfl⟩ := List.mem_map.mp hd
    rw [extractDest_eq target m hplain]
    simp [withinDirB, List.isPrefixOf_iff_prefix]
  · intro m _ hs hEq
    have hcomp := congrArg PyPath.components hEq
    rw [extractDest_eq target m hplain] at hcomp
    simp at hcomp
    exact hs hcomp

/-- Witness for C2, at the member `"images/cat.png"` under `/tmp/w`. -/
theorem extract_stays_within_target_witness :
    withinDirB ⟨true, ["tmp", "w"]⟩ ⟨true, ["tmp", "w", "images", "cat.png"]⟩ = true
    ∧ extractDest ⟨true, ["tmp", "w"]⟩ "images/cat.png" ≠ ⟨true, ["tmp", "w"]⟩ := by
  have h := extract_stays_within_target ⟨true, []⟩ ⟨true, ["tmp", "w"]⟩
    ["images/cat.png"] [⟨true, ["tmp", "w", "images", "cat.png"]⟩] (by decide) rfl
  exact ⟨h.1 _ (by simp), h.2 _ (by simp) (by decide)⟩

/-- C9: for a present, valid archive all of whose entries pass the path
check, the request trace is exactly: create workspace, write main file, write
archive, extract every member in order, remove the archive file, invoke the
engine, remove the workspace — so every entry is extracted and the archive is
deleted after extraction and before the engine runs. -/
theorem safe_archive_full_extraction_trace (s : ServiceSettings)
    (cwd work_dir : PyPath) (tf : Option String) (a : ArchiveUpload)
    (proc : ProcOutcome) (pdfExists : PyPath → Bool)
    (htex : texNameOk tf = true)
    (hf : (a.filename.getD "" != "") = true)
    (hv : a.is_valid_zip = true)
    (hall : a.members.all (zipEntrySafe cwd work_dir) = true) :
    (compile_latex s cwd work_dir ⟨tf, some a⟩ proc pdfExists).1 =
      [FsEvent.createDir work_dir,
       FsEvent.writeFile (joinPath work_dir (parsePath s.latex_main_filename)) .texUpload,
       FsEvent.writeFile (joinPath work_dir (parsePath "assets.zip")) .archiveUpload]
      ++ (a.members.map fun m =>
            FsEvent.writeFile (extractDest work_dir m) (.zipEntry m))
      ++ [FsEvent.removeFile (joinPath work_dir (parsePath "assets.zip")),
          FsEvent.runEngine (build_engine_command work_dir
            ((joinPath work_dir (parsePath s.latex_main_filename)).components.getLast?.getD "") s),
          FsEvent.removeTree work_dir] := by
  rw [compile_latex_accept_eq s cwd work_dir _ proc pdfExists htex,
    compileBody_safe_archive_eq s cwd work_dir _ a tf proc pdfExists hf hv hall]
  simp

/-- Witness for C9, at a two-member archive. -/
theorem safe_archive_full_extraction_trace_witness :
    (compile_latex ⟨"tectonic", 60, "main.tex", "/tmp/c"⟩ ⟨true, []⟩
        ⟨true, ["tmp", "w"]⟩
        ⟨some "doc.tex", some ⟨some "a.zip", true, ["img/x.png", "chapter/notes.tex"]⟩⟩
        (.completed 0 "" "") (fun _ => true)).1 =
      [FsEvent.createDir ⟨true, ["tmp", "w"]⟩,
       FsEvent.writeFile ⟨true, ["tmp", "w", "main.tex"]⟩ .texUpload,
       FsEvent.writeFile ⟨true, ["tmp", "w", "assets.zip"]⟩ .archiveUpload,
       FsEvent.writeFile ⟨true, ["tmp", "w", "img", "x.png"]⟩ (.zipEntry "img/x.png"),
       FsEvent.writeFile ⟨true, ["tmp", "w", "chapter", "notes.tex"]⟩
         (.zipEntry "chapter/notes.tex"),
       FsEvent.removeFile ⟨true, ["tmp", "w", "assets.zip"]⟩,
       FsEvent.runEngine ["tectonic", "--synctex=0", "--keep-intermediates",
         "--keep-logs", "--outdir", "/tmp/w", "main.tex"],
       FsEvent.removeTree ⟨true, ["tmp", "w"]⟩] := by
  rw [safe_archive_full_extraction_trace ⟨"tectonic", 60, "main.tex", "/tmp/c"⟩
    ⟨true, []⟩ ⟨true, ["tmp", "w"]⟩ (some "doc.tex")
    ⟨some "a.zip", true, ["img/x.png", "chapter/notes.tex"]⟩
    (.completed 0 "" "") (fun _ => true) (by decide) (by decide) rfl (by decide)]
  rfl

/-- C10: if the archive contains an entry named exactly like the configured
main filename, the trace writes the uploaded main file first and later — but
still before the engine is invoked — overwrites the same path with the
archive entry's contents, so the engine compiles the archive's version. -/
theorem archive_main_entry_overwrites_upload (s : ServiceSettings)
    (cwd work_dir : PyPath) (tf : Option String) (a : ArchiveUpload)
    (proc : ProcOutcome) (pdfExists : PyPath → Bool)
    (htex : texNameOk tf = true)
    (hf : (a.filename.getD "" != "") = true)
    (hv : a.is_valid_zip = true)
    (hall : a.members.all (zipEntrySafe cwd work_dir) = true)
    (hwd : ∀ c ∈ work_dir.components, isPlainComponent c = true)
    (hparse : parsePath s.latex_main_filename = ⟨false, [s.latex_main_filename]⟩)
    (hsan : sanitizeMemberName s.latex_main_filename = [s.latex_main_filename])
    (hmem : s.latex_main_filename ∈ a.members) :
    ∃ pre post,
      (compile_latex s cwd work_dir ⟨tf, some a⟩ proc pdfExists).1 =
        pre ++ FsEvent.writeFile (joinPath work_dir (parsePath s.latex_main_filename))
          (WriteSource.zipEntry s.latex_main_filename) :: post
      ∧ FsEvent.writeFile (joinPath work_dir (parsePath s.latex_main_filename))
          WriteSource.texUpload ∈ pre
      ∧ FsEvent.runEngine (build_engine_command work_dir
          ((joinPath work_dir (parsePath s.latex_main_filename)).components.getLast?.getD "") s)
          ∈ post := by
  rw [compile_latex_accept_eq s cwd work_dir _ proc pdfExists htex,
    compileBody_safe_archive_eq s cwd work_dir _ a tf proc pdfExists hf hv hall]
  obtain ⟨l1, l2, hsplit⟩ := List.append_of_mem hmem
  have hdest : extractDest work_dir s.latex_main_filename =
      joinPath work_dir (parsePath s.latex_main_filename) := by
    rw [extractDest_eq work_dir _ hwd, hsan, hparse]
    simp [joinPath]
  refine ⟨[FsEvent.createDir work_dir,
      FsEvent.writeFile (joinPath work_dir (parsePath s.latex_main_filename)) .texUpload,
      FsEvent.writeFile (joinPath work_dir (parsePath "assets.zip")) .archiveUpload]
      ++ (l1.map fun m => FsEvent.writeFile (extractDest work_dir m) (.zipEntry m)),
    (l2.map fun m => FsEvent.writeFile (extractDest work_dir m) (.zipEntry m))
      ++ [FsEvent.removeFile (joinPath work_dir (parsePath "assets.zip")),
          FsEvent.runEngine (build_engine_command work_dir
            ((joinPath work_dir (parsePath s.latex_main_filename)).components.getLast?.getD "") s),
          FsEvent.removeTree work_dir], ?_, by simp, by simp⟩
  rw [hsplit]
  simp [hdest]

/-- Witness for C10, at an archive whose second member is `"main.tex"`. -/
theorem archive_main_entry_overwrites_upload_witness :
    ∃ pre post,
      (compile_latex ⟨"tectonic", 60, "main.tex", "/tmp/c"⟩ ⟨true, []⟩
          ⟨true, ["tmp", "w"]⟩
          ⟨some "doc.tex", some ⟨some "a.zip", true, ["img/x.png", "main.tex"]⟩⟩
          (.completed 0 "" "") (fun _ => true)).1 =
        pre ++ FsEvent.writeFile (joinPath ⟨true, ["tmp", "w"]⟩ (parsePath "main.tex"))
          (WriteSource.zipEntry "main.tex") :: post
      ∧ FsEvent.writeFile (joinPath ⟨true, ["tmp", "w"]⟩ (parsePath "main.tex"))
          WriteSource.texUpload ∈ pre
      ∧ FsEvent.runEngine (build_engine_command ⟨true, ["tmp", "w"]⟩
          ((joinPath ⟨true, ["tmp", "w"]⟩ (parsePath "main.tex")).components.getLast?.getD "")
          ⟨"tectonic", 60, "main.tex", "/tmp/c"⟩) ∈ post :=
  archive_main_entry_overwrites_upload ⟨"tectonic", 60, "main.tex", "/tmp/c"⟩
    ⟨true, []⟩ ⟨true, ["tmp", "w"]⟩ (some "doc.tex")
    ⟨some "a.zip", true, ["img/x.png", "main.tex"]⟩ (.completed 0 "" "")
    (fun _ => true) (by decide) (by decide) rfl (by decide) (by decide)
    (by decide) (by decide) (by decide)

end RestLatex
